import Mathlib

/-!
Shallow embedding of the abtm-testimonies-frontend client (a Next.js app):
the submission wizard (src/app/submit/page.tsx), the fetch wrapper and
submitTestimony (src/lib/api.ts), the admin auth provider (src/lib/auth.tsx),
the admin layout gate (src/app/admin/layout.tsx), the storage-settings page
(src/app/admin/settings/page.tsx) and the testimonies moderation page
(src/app/admin/testimonies/page.tsx).

JavaScript strings are Lean `String`s; an unset react-hook-form field is the
empty string (the page reads fields as `watch('x') || ''` and truthiness of a
string is `s ≠ ""`). JavaScript numbers are modelled as exact rationals `ℚ`
(integers `ℤ` where the code only produces integers). Promise outcomes are
`Except`; React state updates are explicit state-passing functions.
-/

/-- Category type enum, `src/types` (`'NETWORK' | 'EXTERNAL' | 'REGION'`). -/
inductive CategoryType
  | NETWORK
  | EXTERNAL
  | REGION
deriving DecidableEq

/-- Content type enum, `src/types` (`'TEXT' | 'VIDEO' | 'AUDIO'`). -/
inductive ContentType
  | text
  | video
  | audio
deriving DecidableEq

/-- An uploaded file, as far as the client inspects it (name and byte size). -/
structure FileRep where
  name : String
  size : Nat
deriving DecidableEq

/-- The form fields of the submission wizard (`formSchema` plus the separate
`file` useState in src/app/submit/page.tsx). Optional/unset string fields are
the empty string, matching the `watch('x') || ''` reads. `categoryType` and
`contentType` always hold a value because `defaultValues` sets them. -/
structure SubmitForm where
  testimonyCategoryId : String
  categoryType : CategoryType
  networkId : String
  customNetwork : String
  externalCategoryId : String
  customExternal : String
  zoneId : String
  groupId : String
  newGroupName : String
  name : String
  email : String
  countryId : String
  phoneCountryCode : String
  phone : String
  church : String
  kingschatUsername : String
  contentType : ContentType
  textContent : String
  file : Option FileRep
deriving DecidableEq

/-- `STEPS` from src/app/submit/page.tsx line 43. -/
def STEPS : List String := ["Category", "Details", "Personal Info", "Testimony", "Review"]

/-- `canProceed` from src/app/submit/page.tsx lines 173-188. JS string
truthiness `!!s` is `s != ""`; `!!categoryType` is `true` because
`categoryType` is an always-set enum field (defaulted to `'NETWORK'`). -/
def canProceed (step : Nat) (f : SubmitForm) : Bool :=
  let hasGroup := (f.groupId != "" && f.groupId != "new") || f.newGroupName != ""
  let hasChurch := f.church != ""
  match step with
  | 0 => true && f.testimonyCategoryId != ""
  | 1 =>
    match f.categoryType with
    | .NETWORK => f.networkId != "" || f.customNetwork != ""
    | .EXTERNAL => f.externalCategoryId != "" || f.customExternal != ""
    | .REGION => f.zoneId != "" && hasGroup && hasChurch
  | 2 => f.name != "" && f.email != "" && f.countryId != "" && f.phone != ""
  | 3 =>
    match f.contentType with
    | .text => f.textContent != ""
    | _ => f.file.isSome
  | _ => true

/-- Wizard state: the `step` useState plus the form fields. -/
structure WizardState where
  step : Nat
  form : SubmitForm
deriving DecidableEq

/-- `handleNext` from src/app/submit/page.tsx line 190:
`step < STEPS.length - 1 && setStep(step + 1)`. -/
def handleNext (s : WizardState) : WizardState :=
  if s.step < STEPS.length - 1 then { s with step := s.step + 1 } else s

/-- `handleBack` from src/app/submit/page.tsx line 191:
`step > 0 && setStep(step - 1)`. -/
def handleBack (s : WizardState) : WizardState :=
  if s.step > 0 then { s with step := s.step - 1 } else s

/-- The Continue button (page.tsx lines 766-775) is rendered only when
`step < STEPS.length - 1` and carries `disabled={!canProceed()}`, so the Next
action is available exactly when both hold. -/
def nextEnabled (s : WizardState) : Bool :=
  decide (s.step < STEPS.length - 1) && canProceed s.step s.form

/-- Clicking Next: a no-op unless the button is rendered and enabled,
otherwise `handleNext`. -/
def clickNext (s : WizardState) : WizardState :=
  if nextEnabled s then handleNext s else s

/-- Clicking Back: the Back button carries `disabled={step === 0}`
(page.tsx line 759), otherwise `handleBack` runs. -/
def clickBack (s : WizardState) : WizardState :=
  if s.step == 0 then s else handleBack s

/-- C1: the wizard has exactly the five steps Category, Details, Personal
Info, Testimony, Review in that order; from any state with step index in
[0,4] both actions keep it in [0,4]; Back decrements the step exactly when
it is positive; Next changes the step only when the step is below 4 and
`canProceed` holds, in which case it increments it; and `canProceed`
requires name, email, countryId and phone at step 2, and at step 3 requires
`textContent` when the content type is TEXT and a selected file otherwise. -/
theorem wizard_five_steps_gated_navigation :
    STEPS = ["Category", "Details", "Personal Info", "Testimony", "Review"] ∧
    (∀ s : WizardState, s.step ≤ 4 → (clickNext s).step ≤ 4 ∧ (clickBack s).step ≤ 4) ∧
    (∀ s : WizardState, s.step = 0 → clickBack s = s) ∧
    (∀ s : WizardState, 0 < s.step → (clickBack s).step = s.step - 1) ∧
    (∀ s : WizardState, (clickNext s).step ≠ s.step →
      s.step < 4 ∧ canProceed s.step s.form = true) ∧
    (∀ s : WizardState, s.step < 4 → canProceed s.step s.form = true →
      (clickNext s).step = s.step + 1) ∧
    (∀ f : SubmitForm, canProceed 2 f =
      (f.name != "" && f.email != "" && f.countryId != "" && f.phone != "")) ∧
    (∀ f : SubmitForm, f.contentType = .text → canProceed 3 f = (f.textContent != "")) ∧
    (∀ f : SubmitForm, f.contentType ≠ .text → canProceed 3 f = f.file.isSome) := by
  refine ⟨rfl, ?_, ?_, ?_, ?_, ?_, ?_, ?_, ?_⟩
  · intro s hs
    constructor
    · unfold clickNext handleNext nextEnabled STEPS
      split
      · split
        · simp only [List.length_cons, List.length_nil] at *
          omega
        · exact hs
      · exact hs
    · unfold clickBack handleBack
      split
      · exact hs
      · split
        · show s.step - 1 ≤ 4
          omega
        · exact hs
  · intro s hs
    unfold clickBack
    simp [hs]
  · intro s hs
    have h0 : s.step ≠ 0 := by omega
    simp [clickBack, handleBack, h0, hs]
  · intro s hne
    unfold clickNext handleNext nextEnabled STEPS at hne
    by_cases hlt : s.step < 4
    · refine ⟨hlt, ?_⟩
      by_cases hcp : canProceed s.step s.form = true
      · exact hcp
      · exfalso
        apply hne
        simp only [List.length_cons, List.length_nil]
        have : (decide (s.step < 5 - 1) && canProceed s.step s.form) = false := by
          simp [hcp]
        rw [this]
        simp
    · exfalso
      apply hne
      simp only [List.length_cons, List.length_nil]
      have : (decide (s.step < 5 - 1) && canProceed s.step s.form) = false := by
        have : ¬ s.step < 5 - 1 := by omega
        simp [this]
      rw [this]
      simp
  · intro s hlt hcp
    unfold clickNext handleNext nextEnabled STEPS
    simp only [List.length_cons, List.length_nil]
    have h1 : s.step < 5 - 1 := by omega
    simp [h1, hcp]
  · intro f
    rfl
  · intro f hf
    unfold canProceed
    rw [hf]
  · intro f hf
    unfold canProceed
    match h : f.contentType with
    | .text => exact absurd h hf
    | .video => rfl
    | .audio => rfl

/-- A concrete form with every required field filled at step 2. -/
def sampleForm : SubmitForm :=
  { testimonyCategoryId := "tc1"
    categoryType := .NETWORK
    networkId := "n1"
    customNetwork := ""
    externalCategoryId := ""
    customExternal := ""
    zoneId := ""
    groupId := ""
    newGroupName := ""
    name := "Ada"
    email := "ada@example.com"
    countryId := "ng"
    phoneCountryCode := "+234"
    phone := "8012345678"
    church := ""
    kingschatUsername := ""
    contentType := .text
    textContent := "A testimony"
    file := none }

/-- Witness for C1 at concrete states: Back at step 0 is a no-op, and Next
at step 2 with a filled form advances to step 3. -/
theorem wizard_five_steps_gated_navigation_witness :
    clickBack ⟨0, sampleForm⟩ = ⟨0, sampleForm⟩ ∧
    (clickNext ⟨2, sampleForm⟩).step = 2 + 1 :=
  ⟨wizard_five_steps_gated_navigation.2.2.1 ⟨0, sampleForm⟩ rfl,
   wizard_five_steps_gated_navigation.2.2.2.2.2.1 ⟨2, sampleForm⟩ (by decide) (by decide)⟩

/-! ### The fetch wrapper `fetchApi` (src/lib/api.ts) -/

/-- One HTTP response as `fetchApi` observes it: the `ok` flag and the result
of `response.json()`. `parsed = none` models a body that is not valid JSON
(the parse rejects); when it parses, `parsed = some (t, e)` carries the body
both as the typed payload `t` the ok-path returns and as `e`, the body's
`error` property (`none` when the field is absent). -/
structure ApiResponse (T : Type) where
  ok : Bool
  parsed : Option (T × Option String)

/-- Outcome of a `fetchApi` call: resolve with the payload, reject with an
`Error` carrying a message, or (only on an ok response whose body is not
valid JSON) reject with the JSON engine's own SyntaxError, whose message the
client does not choose. -/
inductive FetchApiResult (T : Type)
  | ok (t : T)
  | error (msg : String)
  | jsonSyntaxError
deriving DecidableEq

/-- `fetchApi` from src/lib/api.ts lines 19-38: on a non-ok response the body
is parsed with `.catch(() => ({ error: 'Request failed' }))` and the call
rejects with `new Error(error.error || 'Request failed')`; JS `||` takes the
fallback when `error.error` is absent or the empty string. On an ok response
the parsed JSON body is returned. -/
def fetchApi {T : Type} (r : ApiResponse T) : FetchApiResult T :=
  if r.ok then
    match r.parsed with
    | some (t, _) => .ok t
    | none => .jsonSyntaxError
  else
    match r.parsed with
    | some (_, some e) => .error (if e = "" then "Request failed" else e)
    | some (_, none) => .error "Request failed"
    | none => .error "Request failed"

/-- C2: for every call through `fetchApi`, a non-ok response rejects with the
body's `error` field when the body parses as JSON with a non-empty `error`
field and with 'Request failed' otherwise (absent or empty field, and
invalid JSON alike); an ok response that parses resolves with the parsed
body. -/
theorem fetchApi_error_unwrapping {T : Type} (r : ApiResponse T) :
    (∀ t e, r.ok = false → r.parsed = some (t, some e) → e ≠ "" →
      fetchApi r = .error e) ∧
    (∀ t, r.ok = false → r.parsed = some (t, some "") →
      fetchApi r = .error "Request failed") ∧
    (∀ t, r.ok = false → r.parsed = some (t, none) →
      fetchApi r = .error "Request failed") ∧
    (r.ok = false → r.parsed = none → fetchApi r = .error "Request failed") ∧
    (∀ t e, r.ok = true → r.parsed = some (t, e) → fetchApi r = .ok t) := by
  refine ⟨?_, ?_, ?_, ?_, ?_⟩
  · intro t e hok hp he
    simp [fetchApi, hok, hp, he]
  · intro t hok hp
    simp [fetchApi, hok, hp]
  · intro t hok hp
    simp [fetchApi, hok, hp]
  · intro hok hp
    simp [fetchApi, hok, hp]
  · intro t e hok hp
    simp [fetchApi, hok, hp]

/-- Witness for C2 on concrete responses: a 4xx body `{"error":"Bad zone"}`
rejects with 'Bad zone', an unparsable 5xx body rejects with
'Request failed', and an ok body resolves with its payload. -/
theorem fetchApi_error_unwrapping_witness :
    fetchApi (T := Nat) ⟨false, some (7, some "Bad zone")⟩ = .error "Bad zone" ∧
    fetchApi (T := Nat) ⟨false, none⟩ = .error "Request failed" ∧
    fetchApi (T := Nat) ⟨true, some (7, none)⟩ = .ok 7 :=
  ⟨(fetchApi_error_unwrapping ⟨false, some (7, some "Bad zone")⟩).1 7 "Bad zone" rfl rfl
      (by decide),
   (fetchApi_error_unwrapping ⟨false, none⟩).2.2.2.1 rfl rfl,
   (fetchApi_error_unwrapping ⟨true, some (7, none)⟩).2.2.2.2 7 none rfl rfl⟩

/-! ### `submitTestimony` upload timeout (src/lib/api.ts lines 86-127) -/

/-- The upload timeout: `setTimeout(() => controller.abort(), 5 * 60 * 1000)`. -/
def uploadTimeoutMs : Nat := 5 * 60 * 1000

/-- Discrete-time model of the `AbortController` plus `setTimeout` pair in
`submitTestimony`: `responseArrival` is the instant (in ms) at which the
fetch settles, `none` if it never does. The timer fires at `uploadTimeoutMs`
unless `clearTimeout` ran first, which happens exactly when the response
settles strictly earlier. -/
structure UploadTiming where
  responseArrival : Option Nat

/-- Whether the abort fires: the fetch has not settled by `uploadTimeoutMs`. -/
def uploadAborted (t : UploadTiming) : Bool :=
  match t.responseArrival with
  | some rt => decide (uploadTimeoutMs ≤ rt)
  | none => true

/-- Whether `clearTimeout(timeoutId)` cancels the timer (the line directly
after `await fetch` runs before the timer fires). -/
def uploadTimerCleared (t : UploadTiming) : Bool :=
  !uploadAborted t

/-- A JavaScript exception as the catch-clause of `submitTestimony`
distinguishes it: an `AbortError` or any other `Error` with its message. -/
inductive JsError
  | abortError
  | other (msg : String)
deriving DecidableEq

/-- The catch-clause of `submitTestimony` (api.ts lines 119-126): an
`AbortError` is replaced by the fixed timeout message, any other `Error` is
rethrown unchanged. -/
def submitCatch : JsError → String
  | .abortError => "Upload timed out. Please try a smaller file or check your connection."
  | .other m => m

/-- Result of the upload attempt given its timing: an aborted fetch rejects
with `AbortError`, which the catch clause maps to the timeout message; an
unaborted fetch settles with its own outcome `r` (success, or an HTTP/network
error rethrown by the catch clause unchanged). -/
def submitUploadResult {T : Type} (t : UploadTiming) (r : Except String T) : Except String T :=
  if uploadAborted t then .error (submitCatch .abortError)
  else
    match r with
    | .ok v => .ok v
    | .error m => .error (submitCatch (.other m))

/-- C3: the upload timeout is exactly 5 minutes; when the fetch has not
settled by then the abort fires and the surfaced error message is the fixed
timeout message; when the response arrives strictly before the timeout no
abort occurs, the timer is cleared, and the fetch's own outcome is kept. -/
theorem submitTestimony_timeout_behavior {T : Type} :
    uploadTimeoutMs = 5 * 60 * 1000 ∧
    (∀ (t : UploadTiming) (r : Except String T), uploadAborted t = true →
      submitUploadResult t r =
        .error "Upload timed out. Please try a smaller file or check your connection.") ∧
    (∀ (t : UploadTiming) (rt : Nat), t.responseArrival = some rt → rt < uploadTimeoutMs →
      uploadAborted t = false ∧ uploadTimerCleared t = true ∧
      ∀ r : Except String T, submitUploadResult t r = r) := by
  refine ⟨rfl, ?_, ?_⟩
  · intro t r ha
    simp [submitUploadResult, ha, submitCatch]
  · intro t rt hrt hlt
    have ha : uploadAborted t = false := by
      simp [uploadAborted, hrt]
      omega
    refine ⟨ha, by simp [uploadTimerCleared, ha], ?_⟩
    intro r
    cases r <;> simp [submitUploadResult, ha, submitCatch]

/-- Witness for C3: a fetch that never settles yields the timeout message,
and one settling at 1000 ms is kept as-is with the timer cleared. -/
theorem submitTestimony_timeout_behavior_witness :
    submitUploadResult (T := Nat) ⟨none⟩ (.ok 1) =
      .error "Upload timed out. Please try a smaller file or check your connection." ∧
    uploadAborted ⟨some 1000⟩ = false ∧ uploadTimerCleared ⟨some 1000⟩ = true ∧
    submitUploadResult (T := Nat) ⟨some 1000⟩ (.ok 1) = .ok 1 :=
  ⟨(submitTestimony_timeout_behavior (T := Nat)).2.1 ⟨none⟩ (.ok 1) rfl,
   ((submitTestimony_timeout_behavior (T := Nat)).2.2 ⟨some 1000⟩ 1000 rfl (by decide)).1,
   ((submitTestimony_timeout_behavior (T := Nat)).2.2 ⟨some 1000⟩ 1000 rfl (by decide)).2.1,
   ((submitTestimony_timeout_behavior (T := Nat)).2.2 ⟨some 1000⟩ 1000 rfl (by decide)).2.2 (.ok 1)⟩

/-! ### `submitTestimony` multipart form construction (src/lib/api.ts lines 79-99) -/

/-- The payload type `TestimonyInput` from src/types; `?`-fields are
`Option String` (`none` models `undefined`). -/
structure TestimonyInput where
  testimonyCategoryId : String
  categoryType : CategoryType
  networkId : Option String
  customNetwork : Option String
  externalCategoryId : Option String
  customExternal : Option String
  zoneId : Option String
  groupId : Option String
  name : String
  email : String
  phone : String
  phoneCountryCode : String
  countryId : String
  userZoneId : Option String
  userGroupId : Option String
  church : Option String
  kingschatUsername : Option String
  contentType : ContentType
  textContent : Option String
deriving DecidableEq

/-- JSON escaping of one character inside a string literal (the cases
`JSON.stringify` must escape for the strings this app sends). -/
def jsonEscapeChar (c : Char) : String :=
  if c = '"' then "\\\"" else if c = '\\' then "\\\\" else String.singleton c

/-- A JSON string literal. -/
def jsonStringLit (s : String) : String :=
  "\"" ++ String.join (s.data.map jsonEscapeChar) ++ "\""

/-- The `'NETWORK' | 'EXTERNAL' | 'REGION'` literal a `CategoryType` value
serializes to. -/
def CategoryType.toStr : CategoryType → String
  | .NETWORK => "NETWORK"
  | .EXTERNAL => "EXTERNAL"
  | .REGION => "REGION"

/-- The `'TEXT' | 'VIDEO' | 'AUDIO'` literal a `ContentType` value
serializes to. -/
def ContentType.toStr : ContentType → String
  | .text => "TEXT"
  | .video => "VIDEO"
  | .audio => "AUDIO"

/-- The key/value pairs `JSON.stringify` emits for a `TestimonyInput`, in
declaration order; fields holding `undefined` are omitted, exactly as
`JSON.stringify` drops them. -/
def testimonyInputPairs (d : TestimonyInput) : List (String × String) :=
  let opt (k : String) (v : Option String) : List (String × String) :=
    match v with
    | some s => [(k, jsonStringLit s)]
    | none => []
  [("testimonyCategoryId", jsonStringLit d.testimonyCategoryId),
   ("categoryType", jsonStringLit d.categoryType.toStr)] ++
  opt "networkId" d.networkId ++
  opt "customNetwork" d.customNetwork ++
  opt "externalCategoryId" d.externalCategoryId ++
  opt "customExternal" d.customExternal ++
  opt "zoneId" d.zoneId ++
  opt "groupId" d.groupId ++
  [("name", jsonStringLit d.name),
   ("email", jsonStringLit d.email),
   ("phone", jsonStringLit d.phone),
   ("phoneCountryCode", jsonStringLit d.phoneCountryCode),
   ("countryId", jsonStringLit d.countryId)] ++
  opt "userZoneId" d.userZoneId ++
  opt "userGroupId" d.userGroupId ++
  opt "church" d.church ++
  opt "kingschatUsername" d.kingschatUsername ++
  [("contentType", jsonStringLit d.contentType.toStr)] ++
  opt "textContent" d.textContent

/-- `JSON.stringify(data)` for the testimony payload: the object literal over
the emitted pairs. -/
def stringifyTestimonyInput (d : TestimonyInput) : String :=
  "\x7b" ++ String.intercalate ","
    ((testimonyInputPairs d).map (fun p => jsonStringLit p.1 ++ ":" ++ p.2)) ++ "\x7d"

/-- One entry appended to the `FormData`: a string field or a file field. -/
inductive FormPart
  | str (s : String)
  | file (f : FileRep)
deriving DecidableEq

/-- The `FormData` built by `submitTestimony` (api.ts lines 82-87):
`formData.append('data', JSON.stringify(data))`, then
`if (file) formData.append('file', file)`. -/
def buildSubmitFormData (d : TestimonyInput) (file : Option FileRep) :
    List (String × FormPart) :=
  let base := [("data", FormPart.str (stringifyTestimonyInput d))]
  match file with
  | some f => base ++ [("file", FormPart.file f)]
  | none => base

/-- C4: the posted form always carries a `data` field holding the JSON
serialization of the testimony input; a `file` field is present exactly when
a file argument is supplied; and dropping the `file` field from the
with-file form gives precisely the no-file form. -/
theorem submitTestimony_formdata_shape (d : TestimonyInput) (file : Option FileRep) :
    (buildSubmitFormData d file).lookup "data" =
      some (FormPart.str (stringifyTestimonyInput d)) ∧
    ((buildSubmitFormData d file).any (fun p => p.1 == "file") = file.isSome) ∧
    (∀ f : FileRep, file = some f →
      (buildSubmitFormData d file).filter (fun p => p.1 != "file") =
        buildSubmitFormData d none) := by
  refine ⟨?_, ?_, ?_⟩
  · cases file <;> simp [buildSubmitFormData, List.lookup]
  · cases file <;> simp [buildSubmitFormData]
  · intro f hf
    subst hf
    simp [buildSubmitFormData]

/-- A concrete testimony payload for the C4 witness. -/
def sampleInput : TestimonyInput :=
  { testimonyCategoryId := "tc1"
    categoryType := .NETWORK
    networkId := some "n1"
    customNetwork := none
    externalCategoryId := none
    customExternal := none
    zoneId := none
    groupId := none
    name := "Ada"
    email := "ada@example.com"
    phone := "8012345678"
    phoneCountryCode := "+234"
    countryId := "ng"
    userZoneId := none
    userGroupId := none
    church := none
    kingschatUsername := none
    contentType := .text
    textContent := some "A testimony" }

/-- Witness for C4 at a concrete payload and file: the with-file form minus
its `file` entry equals the no-file form. -/
theorem submitTestimony_formdata_shape_witness :
    (buildSubmitFormData sampleInput (some ⟨"clip.mp4", 5⟩)).filter
        (fun p => p.1 != "file") =
      buildSubmitFormData sampleInput none :=
  (submitTestimony_formdata_shape sampleInput (some ⟨"clip.mp4", 5⟩)).2.2
    ⟨"clip.mp4", 5⟩ rfl

/-! ### Moderation status updates (src/lib/api.ts `updateTestimonyStatus`,
src/app/admin/testimonies/page.tsx `handleUpdateStatus`/`loadTestimonies`) -/

/-- The argument type of `updateTestimonyStatus`: the TypeScript signature
admits only `'APPROVED' | 'REJECTED'`. -/
inductive UpdateStatus
  | APPROVED
  | REJECTED
deriving DecidableEq

/-- The status string placed in the PATCH body. -/
def UpdateStatus.toStr : UpdateStatus → String
  | .APPROVED => "APPROVED"
  | .REJECTED => "REJECTED"

/-- The request `updateTestimonyStatus` issues (api.ts lines 179-187):
`PATCH /api/testimonies/:id` with body `JSON.stringify({ status })`. -/
structure StatusUpdateRequest where
  endpoint : String
  method : String
  bodyStatus : String
deriving DecidableEq

/-- `updateTestimonyStatus` from src/lib/api.ts lines 179-187. -/
def updateTestimonyStatusRequest (id : String) (status : UpdateStatus) :
    StatusUpdateRequest :=
  { endpoint := "/api/testimonies/" ++ id
    method := "PATCH"
    bodyStatus := status.toStr }

/-- A testimony row as the admin list holds it (only the parts the claim
touches: identity and status string). -/
structure TestimonyRow where
  id : String
  status : String
deriving DecidableEq

/-- State of the admin testimonies page that `handleUpdateStatus` touches:
the fetched list (`data`, `none` before any load), the detail dialog flag,
the updating flag and the queued toasts. -/
structure TestimoniesPageState where
  data : Option (List TestimonyRow)
  isViewOpen : Bool
  isUpdating : Bool
  toasts : List String
deriving DecidableEq

/-- A request the testimonies page can issue after a status update: the only
one is `loadTestimonies()` (a fresh GET of the list). -/
inductive TestimoniesPageRequest
  | loadTestimonies
deriving DecidableEq

/-- Completion of the `await updateTestimonyStatus(id, newStatus)` inside
`handleUpdateStatus` (testimonies page lines 125-145): on success it toasts,
closes the dialog and calls `loadTestimonies()`; on failure it toasts; the
`finally` clears `isUpdating`. In neither branch is `data` touched. -/
def handleUpdateStatusComplete (st : TestimoniesPageState) (newStatus : UpdateStatus)
    (result : Except String Unit) :
    TestimoniesPageState × List TestimoniesPageRequest :=
  match result with
  | .ok _ =>
    ({ st with
        toasts := st.toasts ++ ["Testimony " ++ newStatus.toStr.toLower]
        isViewOpen := false
        isUpdating := false },
     [.loadTestimonies])
  | .error _ =>
    ({ st with
        toasts := st.toasts ++ ["Failed to update testimony"]
        isUpdating := false },
     [])

/-- Completion of `loadTestimonies()` (testimonies page lines 76-103): on
success the whole list state is replaced by the server response `setData(result)`;
on failure it toasts and leaves `data` alone. Neither branch issues any
request. -/
def loadTestimoniesComplete (st : TestimoniesPageState)
    (result : Except String (List TestimonyRow)) :
    TestimoniesPageState × List TestimoniesPageRequest :=
  match result with
  | .ok rows => ({ st with data := some rows }, [])
  | .error _ => ({ st with toasts := st.toasts ++ ["Failed to load testimonies"] }, [])

/-- C5: every status-update request the client can build carries APPROVED or
REJECTED and never PENDING; completing `handleUpdateStatus` leaves the local
list untouched (on success it only schedules a server refetch); and a
completed refetch replaces the list wholesale with the server's rows. -/
theorem moderation_requests_and_refetch :
    (∀ (id : String) (s : UpdateStatus),
      (updateTestimonyStatusRequest id s).bodyStatus ≠ "PENDING" ∧
      ((updateTestimonyStatusRequest id s).bodyStatus = "APPROVED" ∨
       (updateTestimonyStatusRequest id s).bodyStatus = "REJECTED")) ∧
    (∀ (st : TestimoniesPageState) (ns : UpdateStatus) (r : Except String Unit),
      (handleUpdateStatusComplete st ns r).1.data = st.data) ∧
    (∀ (st : TestimoniesPageState) (ns : UpdateStatus),
      (handleUpdateStatusComplete st ns (.ok ())).2 = [.loadTestimonies]) ∧
    (∀ (st : TestimoniesPageState) (rows : List TestimonyRow),
      (loadTestimoniesComplete st (.ok rows)).1.data = some rows) := by
  refine ⟨?_, ?_, ?_, ?_⟩
  · intro id s
    cases s <;> simp [updateTestimonyStatusRequest, UpdateStatus.toStr]
  · intro st ns r
    cases r <;> rfl
  · intro st ns
    rfl
  · intro st rows
    rfl

/-! ### Admin auth provider `checkAuth` (src/lib/auth.tsx lines 26-35) -/

/-- An authenticated admin (src/types `Admin`). -/
structure AdminUser where
  id : String
  email : String
  name : String
deriving DecidableEq

/-- The slice of `AuthProvider` state `checkAuth` writes. -/
structure AuthState where
  admin : Option AdminUser
  isLoading : Bool
deriving DecidableEq

/-- `checkAuth` from src/lib/auth.tsx lines 26-35, as a total function of the
outcome of `getCurrentAdmin()`: the try-branch stores the returned admin, the
bare catch stores `null` whatever the rejection reason was, and the finally
clears `isLoading` on both paths. Totality of this function is the model of
"no exception escapes". -/
def checkAuth (outcome : Except String AdminUser) : AuthState :=
  match outcome with
  | .ok a => { admin := some a, isLoading := false }
  | .error _ => { admin := none, isLoading := false }

/-- C10: `checkAuth` is total over every outcome of `getCurrentAdmin`; a
rejection (with any message) yields `admin = null`, and on every path
`isLoading` is false afterwards, so the layout cannot stay stuck loading. -/
theorem checkAuth_total_always_clears_loading (outcome : Except String AdminUser) :
    (checkAuth outcome).isLoading = false ∧
    (∀ e, outcome = .error e → (checkAuth outcome).admin = none) ∧
    (∀ a, outcome = .ok a → (checkAuth outcome).admin = some a) := by
  refine ⟨?_, ?_, ?_⟩
  · cases outcome <;> rfl
  · intro e he
    subst he
    rfl
  · intro a ha
    subst ha
    rfl

/-- Witness for C10 at concrete outcomes: a network failure ends with no
admin and loading cleared. -/
theorem checkAuth_total_always_clears_loading_witness :
    (checkAuth (.error "Request failed")).isLoading = false ∧
    (checkAuth (.error "Request failed")).admin = none :=
  ⟨(checkAuth_total_always_clears_loading (.error "Request failed")).1,
   (checkAuth_total_always_clears_loading (.error "Request failed")).2.1
     "Request failed" rfl⟩

/-! ### Admin layout gate (src/app/admin/layout.tsx `AdminLayoutContent`) -/

/-- What `AdminLayoutContent` renders. -/
inductive AdminRender
  | loginPage
  | loadingSkeleton
  | nothing
  | adminContent
deriving DecidableEq

/-- The render branches of `AdminLayoutContent` (layout.tsx lines 47-65), in
source order: the login path is passed through untouched, then the loading
skeleton, then `null` when no admin is set, else the admin chrome with the
page content. -/
def adminLayoutRender (admin : Option AdminUser) (isLoading : Bool)
    (pathname : String) : AdminRender :=
  if pathname = "/admin/login" then .loginPage
  else if isLoading then .loadingSkeleton
  else
    match admin with
    | none => .nothing
    | some _ => .adminContent

/-- The redirect effect of `AdminLayoutContent` (layout.tsx lines 41-45):
`router.push('/admin/login')` fires when the check has finished, no admin is
set, and the pathname is not the login page. -/
def adminLayoutRedirects (admin : Option AdminUser) (isLoading : Bool)
    (pathname : String) : Bool :=
  !isLoading && admin.isNone && pathname != "/admin/login"

/-- C6: when the auth check has finished, no admin is set and the path is not
`/admin/login`, the layout redirects to the login page and renders nothing;
admin content renders only for an authenticated admin; and the login page
renders without the gate. -/
theorem admin_layout_gate (admin : Option AdminUser) (isLoading : Bool)
    (pathname : String) :
    (isLoading = false → admin = none → pathname ≠ "/admin/login" →
      adminLayoutRedirects admin isLoading pathname = true ∧
      adminLayoutRender admin isLoading pathname = .nothing) ∧
    (adminLayoutRender admin isLoading pathname = .adminContent →
      isLoading = false ∧ admin.isSome = true ∧ pathname ≠ "/admin/login") ∧
    (pathname = "/admin/login" →
      adminLayoutRender admin isLoading pathname = .loginPage ∧
      adminLayoutRedirects admin isLoading pathname = false) := by
  refine ⟨?_, ?_, ?_⟩
  · intro hl ha hp
    subst hl
    subst ha
    constructor
    · simp [adminLayoutRedirects, hp]
    · simp [adminLayoutRender, hp]
  · intro hr
    unfold adminLayoutRender at hr
    by_cases hp : pathname = "/admin/login"
    · simp [hp] at hr
    · rw [if_neg hp] at hr
      by_cases hl : isLoading
      · simp [hl] at hr
      · cases ha : admin with
        | none =>
          subst ha
          simp [hl] at hr
        | some a =>
          simp [Bool.not_eq_true] at hl
          exact ⟨hl, by simp [ha], hp⟩
  · intro hp
    subst hp
    constructor
    · simp [adminLayoutRender]
    · simp [adminLayoutRedirects]

/-- Witness for C6 at a concrete state: finished check, no admin, dashboard
path redirects and renders nothing; the login path renders the login page. -/
theorem admin_layout_gate_witness :
    adminLayoutRedirects none false "/admin" = true ∧
    adminLayoutRender none false "/admin" = .nothing ∧
    adminLayoutRender (some ⟨"1", "a@b.c", "Root"⟩) true "/admin/login" = .loginPage :=
  ⟨((admin_layout_gate none false "/admin").1 rfl rfl (by decide)).1,
   ((admin_layout_gate none false "/admin").1 rfl rfl (by decide)).2,
   ((admin_layout_gate (some ⟨"1", "a@b.c", "Root"⟩) true "/admin/login").2.2 rfl).1⟩

/-! ### Storage size helpers (src/app/admin/settings/page.tsx lines 23-38)

`parseSize` and `bytesToUnit` manipulate JavaScript numbers coming from
`parseFloat`, `Math.round`, division and `toFixed(0)`. Numbers are modelled
as exact rationals; `Math.round(x)` and `toFixed(0)` both round to the
nearest integer with ties toward the larger value, i.e. `⌊x + 1/2⌋`. -/

/-- Numeric value of a list of decimal digit characters, most significant
first (each contributes `c.toNat - 48`). -/
def digitsVal (cs : List Char) : Nat :=
  cs.foldl (fun a c => 10 * a + (c.toNat - 48)) 0

/-- The decimal digit characters of `n`, most significant first (the
fuel-free counterpart of core's `Nat.toDigits 10`). -/
def natDigits (n : Nat) : List Char :=
  if _h : n < 10 then [Nat.digitChar n]
  else natDigits (n / 10) ++ [Nat.digitChar (n % 10)]
termination_by n
decreasing_by exact Nat.div_lt_self (by omega) (by omega)

theorem natDigits_lt {n : Nat} (h : n < 10) : natDigits n = [Nat.digitChar n] := by
  rw [natDigits]
  simp [h]

theorem natDigits_ge {n : Nat} (h : ¬ n < 10) :
    natDigits n = natDigits (n / 10) ++ [Nat.digitChar (n % 10)] := by
  rw [natDigits]
  simp [h]

theorem digitChar_isDigit {d : Nat} (h : d < 10) : (Nat.digitChar d).isDigit = true := by
  interval_cases d <;> decide

theorem digitChar_toNat {d : Nat} (h : d < 10) : (Nat.digitChar d).toNat - 48 = d := by
  interval_cases d <;> decide

theorem natDigits_all_isDigit (n : Nat) : ∀ c ∈ natDigits n, c.isDigit = true := by
  induction n using Nat.strong_induction_on with
  | _ n ih =>
    by_cases h : n < 10
    · intro c hc
      rw [natDigits_lt h] at hc
      simp only [List.mem_singleton] at hc
      subst hc
      exact digitChar_isDigit h
    · intro c hc
      rw [natDigits_ge h, List.mem_append] at hc
      rcases hc with hc | hc
      · exact ih (n / 10) (Nat.div_lt_self (by omega) (by omega)) c hc
      · simp only [List.mem_singleton] at hc
        subst hc
        exact digitChar_isDigit (Nat.mod_lt _ (by omega))

theorem natDigits_ne_nil (n : Nat) : natDigits n ≠ [] := by
  by_cases h : n < 10
  · rw [natDigits_lt h]
    simp
  · rw [natDigits_ge h]
    simp

theorem digitsVal_natDigits (n : Nat) : digitsVal (natDigits n) = n := by
  induction n using Nat.strong_induction_on with
  | _ n ih =>
    by_cases h : n < 10
    · rw [natDigits_lt h]
      simp [digitsVal, digitChar_toNat h]
    · rw [natDigits_ge h]
      unfold digitsVal
      rw [List.foldl_append]
      simp only [List.foldl_cons, List.foldl_nil]
      have ih' := ih (n / 10) (Nat.div_lt_self (by omega) (by omega))
      unfold digitsVal at ih'
      rw [ih', digitChar_toNat (Nat.mod_lt _ (by omega))]
      omega

theorem toDigitsCore_eq_natDigits :
    ∀ (fuel n : Nat) (acc : List Char), n < 10 ^ (fuel + 1) →
      Nat.toDigitsCore 10 (fuel + 1) n acc = natDigits n ++ acc := by
  intro fuel
  induction fuel with
  | zero =>
    intro n acc hn
    have hlt : n < 10 := by
      have hpow : 10 ^ (0 + 1) = 10 := by norm_num
      omega
    have hdiv : n / 10 = 0 := Nat.div_eq_of_lt hlt
    have hstep : Nat.toDigitsCore 10 (0 + 1) n acc =
        if n / 10 = 0 then Nat.digitChar (n % 10) :: acc
        else Nat.toDigitsCore 10 0 (n / 10) (Nat.digitChar (n % 10) :: acc) := rfl
    rw [hstep, if_pos hdiv, natDigits_lt hlt, Nat.mod_eq_of_lt hlt]
    rfl
  | succ f ihf =>
    intro n acc hn
    have hstep : Nat.toDigitsCore 10 (f + 1 + 1) n acc =
        if n / 10 = 0 then Nat.digitChar (n % 10) :: acc
        else Nat.toDigitsCore 10 (f + 1) (n / 10) (Nat.digitChar (n % 10) :: acc) := rfl
    rw [hstep]
    by_cases hdiv : n / 10 = 0
    · have hlt : n < 10 := by omega
      rw [if_pos hdiv, natDigits_lt hlt, Nat.mod_eq_of_lt hlt]
      rfl
    · have hbound : n / 10 < 10 ^ (f + 1) := by
        rw [Nat.div_lt_iff_lt_mul (by omega : (0:Nat) < 10)]
        have hpow : 10 ^ (f + 1 + 1) = 10 ^ (f + 1) * 10 := by ring
        omega
      have h10 : ¬ n < 10 := by omega
      rw [if_neg hdiv, ihf (n / 10) _ hbound, natDigits_ge h10, List.append_assoc]
      rfl

theorem natRepr_eq_natDigits (n : Nat) : Nat.repr n = (natDigits n).asString := by
  show (Nat.toDigits 10 n).asString = _
  rw [Nat.toDigits]
  have h : n < 10 ^ (n + 1) :=
    lt_of_lt_of_le (Nat.lt_pow_self (by omega) n)
      (Nat.pow_le_pow_right (by omega) (Nat.le_succ n))
  rw [toDigitsCore_eq_natDigits n n [] h, List.append_nil]

/-- Leading-whitespace skipping of `parseFloat` (spaces suffice for this
app's inputs). -/
def stripLeadingSpaces (cs : List Char) : List Char :=
  cs.dropWhile (fun c => c == ' ')

/-- The optional sign `parseFloat` consumes, as a factor. -/
def splitSign (cs : List Char) : ℚ × List Char :=
  match cs with
  | [] => ((1 : ℚ), ([] : List Char))
  | c :: rest =>
    if c = '-' then ((-1 : ℚ), rest)
    else if c = '+' then ((1 : ℚ), rest)
    else ((1 : ℚ), c :: rest)

/-- The fractional digits `parseFloat` consumes after the integer part. -/
def fracPart (cs : List Char) : List Char :=
  match cs with
  | '.' :: r => r.takeWhile Char.isDigit
  | _ => []

/-- Partial model of JavaScript `parseFloat`, exact-valued and restricted to
plain decimal notation: optional leading spaces and sign, then the longest
run of digits, optionally a dot and more digits; `none` models `NaN`. It is
faithful only on such inputs: real `parseFloat` also skips tabs and
newlines, accepts exponent notation and `Infinity`, and rounds the exact
decimal value to the nearest binary64 float, none of which is modelled
here. The settings page feeds it strings typed into number inputs; the C8
guard logic does not depend on these differences. -/
def jsParseFloat (s : String) : Option ℚ :=
  let cs := stripLeadingSpaces s.data
  let p := splitSign cs
  let intDigits := p.2.takeWhile Char.isDigit
  let rest := p.2.dropWhile Char.isDigit
  let fds := fracPart rest
  if intDigits.isEmpty && fds.isEmpty then none
  else some (p.1 * ((digitsVal intDigits : ℚ) + (digitsVal fds : ℚ) / 10 ^ fds.length))

/-- JavaScript `Math.round`: nearest integer, ties toward the larger value. -/
def jsRound (q : ℚ) : ℤ := ⌊q + 1/2⌋

/-- Exact-valued model of JavaScript `x.toFixed(0)`: the decimal string of
the nearest integer, ties toward the larger value. Real `toFixed` operates
on a binary64 value and switches to exponent notation at magnitudes of 1e21
and above; neither is modelled here. -/
def jsToFixed0 (q : ℚ) : String :=
  if ⌊q + 1/2⌋ < 0 then "-" ++ Nat.repr (⌊q + 1/2⌋).natAbs
  else Nat.repr (⌊q + 1/2⌋).toNat

/-- The `multipliers` record of `parseSize` (settings page lines 25-28) with
its `|| 1` fallback for an unrecognized unit. -/
def sizeMultiplier (unit : String) : ℚ :=
  if unit = "MB" then 1024 * 1024
  else if unit = "GB" then 1024 * 1024 * 1024
  else 1

/-- The `divisors` record of `bytesToUnit` (settings page lines 33-36) with
its `|| 1` fallback for an unrecognized unit. -/
def sizeDivisor (unit : String) : ℚ :=
  if unit = "MB" then 1024 * 1024
  else if unit = "GB" then 1024 * 1024 * 1024
  else 1

/-- `parseSize` from src/app/admin/settings/page.tsx lines 23-30:
`Math.round((parseFloat(value) || 0) * (multipliers[unit] || 1))`. -/
def parseSize (value unit : String) : ℤ :=
  jsRound ((jsParseFloat value).getD 0 * sizeMultiplier unit)

/-- `bytesToUnit` from src/app/admin/settings/page.tsx lines 32-38:
`(bytes / (divisors[unit] || 1)).toFixed(0)`. -/
def bytesToUnit (bytes : ℚ) (unit : String) : String :=
  jsToFixed0 (bytes / sizeDivisor unit)

theorem isDigit_ne_special {c : Char} (h : c.isDigit = true) :
    c ≠ ' ' ∧ c ≠ '-' ∧ c ≠ '+' := by
  refine ⟨?_, ?_, ?_⟩ <;> (intro he; subst he; exact absurd h (by decide))

theorem jsParseFloat_digits (l : List Char) (hne : l ≠ [])
    (hall : ∀ c ∈ l, c.isDigit = true) :
    jsParseFloat l.asString = some (digitsVal l : ℚ) := by
  obtain ⟨c, tl, rfl⟩ := List.exists_cons_of_ne_nil hne
  have hc : c.isDigit = true := hall c (List.mem_cons_self c tl)
  obtain ⟨hsp, hminus, hplus⟩ := isDigit_ne_special hc
  have hdata : ((c :: tl).asString).data = c :: tl := rfl
  have h1 : stripLeadingSpaces (c :: tl) = c :: tl := by
    unfold stripLeadingSpaces
    rw [List.dropWhile_cons]
    simp [hsp]
  have h2 : splitSign (c :: tl) = ((1 : ℚ), c :: tl) := by
    show (if c = '-' then ((-1 : ℚ), tl)
          else if c = '+' then ((1 : ℚ), tl)
          else ((1 : ℚ), c :: tl)) = ((1 : ℚ), c :: tl)
    rw [if_neg hminus, if_neg hplus]
  have h3 : (c :: tl).takeWhile Char.isDigit = c :: tl :=
    List.takeWhile_eq_self_iff.mpr hall
  have h4 : (c :: tl).dropWhile Char.isDigit = [] :=
    List.dropWhile_eq_nil_iff.mpr hall
  have h5 : fracPart [] = [] := rfl
  have hval : digitsVal ([] : List Char) = 0 := rfl
  unfold jsParseFloat
  rw [hdata]
  simp only [h1, h2, h3, h4, h5, hval, List.isEmpty_cons, List.isEmpty_nil,
    Bool.false_and, Bool.false_eq_true, if_false, List.length_nil]
  norm_num

theorem jsParseFloat_natRepr (n : Nat) : jsParseFloat (Nat.repr n) = some (n : ℚ) := by
  rw [natRepr_eq_natDigits,
    jsParseFloat_digits (natDigits n) (natDigits_ne_nil n) (natDigits_all_isDigit n),
    digitsVal_natDigits]

theorem floor_half_q : ⌊(1/2 : ℚ)⌋ = 0 := by
  rw [Int.floor_eq_zero_iff, Set.mem_Ico]
  norm_num

theorem jsRound_intCast (k : ℤ) : jsRound (k : ℚ) = k := by
  unfold jsRound
  rw [Int.floor_int_add, floor_half_q, add_zero]

theorem sizeMultiplier_MB : sizeMultiplier "MB" = ((1048576 : ℤ) : ℚ) := by
  unfold sizeMultiplier
  rw [if_pos rfl]
  norm_num

theorem sizeMultiplier_GB : sizeMultiplier "GB" = ((1073741824 : ℤ) : ℚ) := by
  unfold sizeMultiplier
  rw [if_neg (by decide), if_pos rfl]
  norm_num

/-! ### Storage settings page state machine (src/app/admin/settings/page.tsx) -/

/-- The three storage quotas (src/types `StorageSettings`). -/
structure StorageSettingsVals where
  totalStorageLimit : ℤ
  maxVideoFileSize : ℤ
  maxAudioFileSize : ℤ
deriving DecidableEq

/-- The slice of settings-page state the handlers write (the storage stats
that accompany the settings in the response are not read by these
handlers). -/
structure SettingsPageState where
  data : Option StorageSettingsVals
  toasts : List String
  isSaving : Bool
  isLoading : Bool
deriving DecidableEq

/-- A request the settings page can issue. -/
inductive SettingsRequest
  | getStorageSettings
  | updateStorageSettings (totalStorageLimit maxVideoFileSize maxAudioFileSize : ℤ)
deriving DecidableEq

/-- Start of `loadSettings` (settings page lines 51-69): sets the loading
flag and issues the GET; runs on mount and from the explicit Refresh and
Try Again buttons. -/
def loadSettingsStart (st : SettingsPageState) :
    SettingsPageState × List SettingsRequest :=
  ({ st with isLoading := true }, [.getStorageSettings])

/-- Completion of the awaited `getStorageSettings()` inside `loadSettings`:
success stores the response, failure toasts; the finally clears the loading
flag; neither branch issues any request. -/
def loadSettingsComplete (st : SettingsPageState)
    (result : Except String StorageSettingsVals) :
    SettingsPageState × List SettingsRequest :=
  match result with
  | .ok r => ({ st with data := some r, isLoading := false }, [])
  | .error _ =>
    ({ st with toasts := st.toasts ++ ["Failed to load storage settings"]
               isLoading := false }, [])

/-- `handleSave` up to its first await (settings page lines 74-110): the
three inputs are parsed with `parseSize`; each minimum is checked in turn
and a violation toasts and returns without any request; only when all three
pass is `isSaving` set and the PATCH issued with the parsed values. -/
def handleSaveStart (st : SettingsPageState)
    (totalStorageGB maxVideoMB maxAudioMB : String) :
    SettingsPageState × List SettingsRequest :=
  if parseSize totalStorageGB "GB" < 100 * 1024 * 1024 then
    ({ st with toasts := st.toasts ++ ["Total storage limit must be at least 100 MB"] }, [])
  else if parseSize maxVideoMB "MB" < 1024 * 1024 then
    ({ st with toasts := st.toasts ++ ["Max video file size must be at least 1 MB"] }, [])
  else if parseSize maxAudioMB "MB" < 1024 * 1024 then
    ({ st with toasts := st.toasts ++ ["Max audio file size must be at least 1 MB"] }, [])
  else
    ({ st with isSaving := true },
     [.updateStorageSettings (parseSize totalStorageGB "GB") (parseSize maxVideoMB "MB")
        (parseSize maxAudioMB "MB")])

/-- Completion of the awaited `updateStorageSettings` inside `handleSave`
(settings page lines 105-127): success stores the response and toasts,
failure toasts the error message; the finally clears `isSaving`; neither
branch issues any request. -/
def handleSaveComplete (st : SettingsPageState)
    (result : Except String StorageSettingsVals) :
    SettingsPageState × List SettingsRequest :=
  match result with
  | .ok r =>
    ({ st with data := some r
               toasts := st.toasts ++ ["Storage settings updated successfully"]
               isSaving := false }, [])
  | .error m =>
    ({ st with toasts := st.toasts ++ [m], isSaving := false }, [])

theorem parseSize_natRepr (n : Nat) (mz : ℤ) (u : String)
    (hmul : sizeMultiplier u = (mz : ℚ)) :
    parseSize (Nat.repr n) u = (n : ℤ) * mz := by
  unfold parseSize
  rw [jsParseFloat_natRepr, Option.getD_some, hmul]
  have hc : (n : ℚ) * (mz : ℚ) = (((n : ℤ) * mz : ℤ) : ℚ) := by push_cast; ring
  rw [hc, jsRound_intCast]

/-- C8: the save action issues an update request if and only if the three
parsed values meet their minimums (100 MiB total, 1 MiB video, 1 MiB audio);
when it does, the request carries exactly the parsed values; when any
minimum is violated no request is issued, the stored settings are unchanged
and a validation toast is appended. -/
theorem settings_save_validation (st : SettingsPageState)
    (g v a : String) :
    ((handleSaveStart st g v a).2 ≠ [] ↔
      100 * 1024 * 1024 ≤ parseSize g "GB" ∧
      1024 * 1024 ≤ parseSize v "MB" ∧
      1024 * 1024 ≤ parseSize a "MB") ∧
    (100 * 1024 * 1024 ≤ parseSize g "GB" →
     1024 * 1024 ≤ parseSize v "MB" →
     1024 * 1024 ≤ parseSize a "MB" →
      handleSaveStart st g v a =
        ({ st with isSaving := true },
         [.updateStorageSettings (parseSize g "GB") (parseSize v "MB")
            (parseSize a "MB")])) ∧
    (¬ (100 * 1024 * 1024 ≤ parseSize g "GB" ∧
        1024 * 1024 ≤ parseSize v "MB" ∧
        1024 * 1024 ≤ parseSize a "MB") →
      (handleSaveStart st g v a).2 = [] ∧
      (handleSaveStart st g v a).1.data = st.data ∧
      ∃ m, (handleSaveStart st g v a).1.toasts = st.toasts ++ [m]) := by
  unfold handleSaveStart
  by_cases h1 : parseSize g "GB" < 100 * 1024 * 1024
  · rw [if_pos h1]
    refine ⟨⟨fun h => absurd rfl h, fun hg => absurd hg.1 (by omega)⟩,
      fun hg _ _ => absurd hg (by omega),
      fun _ => ⟨rfl, rfl, "Total storage limit must be at least 100 MB", rfl⟩⟩
  · rw [if_neg h1]
    by_cases h2 : parseSize v "MB" < 1024 * 1024
    · rw [if_pos h2]
      refine ⟨⟨fun h => absurd rfl h, fun hg => absurd hg.2.1 (by omega)⟩,
        fun _ hv _ => absurd hv (by omega),
        fun _ => ⟨rfl, rfl, "Max video file size must be at least 1 MB", rfl⟩⟩
    · rw [if_neg h2]
      by_cases h3 : parseSize a "MB" < 1024 * 1024
      · rw [if_pos h3]
        refine ⟨⟨fun h => absurd rfl h, fun hg => absurd hg.2.2 (by omega)⟩,
          fun _ _ ha => absurd ha (by omega),
          fun _ => ⟨rfl, rfl, "Max audio file size must be at least 1 MB", rfl⟩⟩
      · rw [if_neg h3]
        refine ⟨⟨fun _ => ⟨by omega, by omega, by omega⟩, fun _ => by simp⟩,
          fun _ _ _ => rfl,
          fun hc => absurd ⟨by omega, by omega, by omega⟩ hc⟩

theorem parseSize_one_GB : parseSize "1" "GB" = 1073741824 := by
  have h : "1" = Nat.repr 1 := rfl
  rw [h, parseSize_natRepr 1 1073741824 "GB" sizeMultiplier_GB]
  norm_num

theorem parseSize_zero_GB : parseSize "0" "GB" = 0 := by
  have h : "0" = Nat.repr 0 := rfl
  rw [h, parseSize_natRepr 0 1073741824 "GB" sizeMultiplier_GB]
  norm_num

theorem parseSize_five_MB : parseSize "5" "MB" = 5242880 := by
  have h : "5" = Nat.repr 5 := rfl
  rw [h, parseSize_natRepr 5 1048576 "MB" sizeMultiplier_MB]
  norm_num

theorem parseSize_two_MB : parseSize "2" "MB" = 2097152 := by
  have h : "2" = Nat.repr 2 := rfl
  rw [h, parseSize_natRepr 2 1048576 "MB" sizeMultiplier_MB]
  norm_num

/-- Witness for C8 at concrete inputs: "1" GB / "5" MB / "2" MB passes
validation and issues the PATCH with the parsed byte values; "0" GB fails
validation and issues nothing. -/
theorem settings_save_validation_witness :
    (handleSaveStart ⟨none, [], false, false⟩ "1" "5" "2").2 =
      [.updateStorageSettings (parseSize "1" "GB") (parseSize "5" "MB")
        (parseSize "2" "MB")] ∧
    (handleSaveStart ⟨none, [], false, false⟩ "0" "5" "2").2 = [] := by
  constructor
  · have h := (settings_save_validation ⟨none, [], false, false⟩ "1" "5" "2").2.1
      (by rw [parseSize_one_GB]; norm_num)
      (by rw [parseSize_five_MB]; norm_num)
      (by rw [parseSize_two_MB]; norm_num)
    rw [h]
  · exact ((settings_save_validation ⟨none, [], false, false⟩ "0" "5" "2").2.2
      (by rw [parseSize_zero_GB]; intro hc; omega)).1

/-! ### Submit page request/completion handlers (src/app/submit/page.tsx)

Each async handler is split at its awaits: a `...Start` function records the
state writes before the request and lists the requests issued; a
`...Complete` function is the continuation run when the awaited promise
settles, again listing any requests it issues. The claim of interest is that
no completion of a failed request ever issues one. -/

/-- The payload of the initial `Promise.all` load (page.tsx lines 98-104). -/
structure InitialData where
  networks : List String
  externalCategories : List String
  testimonyCategories : List String
  zones : List String
  countries : List String
deriving DecidableEq

/-- A remote request the submit page can issue. -/
inductive SubmitPageRequest
  | initialData
  | groups (zoneId : String)
  | createGroup (name zoneId : String)
  | submitTestimony
deriving DecidableEq

/-- The slice of submit-page state the load/submit handlers write. -/
structure SubmitPageState where
  initial : Option InitialData
  groups : List String
  isInitialLoading : Bool
  initialLoadError : Option String
  isLoadingGroups : Bool
  groupsError : Option String
  isSubmitting : Bool
  isCreatingGroup : Bool
  navigatedToSuccess : Bool
  toasts : List String
deriving DecidableEq

/-- Start of `loadInitialData` (page.tsx lines 94-98): clears the error,
sets the loading flag and issues the combined initial GETs; it runs on mount
and from the explicit Try Again button (line 312). -/
def loadInitialDataStart (st : SubmitPageState) :
    SubmitPageState × List SubmitPageRequest :=
  ({ st with isInitialLoading := true, initialLoadError := none },
   [.initialData])

/-- Completion of the awaited `Promise.all` inside `loadInitialData`
(page.tsx lines 98-116): success stores the five lists; failure records the
error and toasts it; the finally clears the loading flag. Neither branch
issues any request. -/
def loadInitialDataComplete (st : SubmitPageState)
    (result : Except String InitialData) :
    SubmitPageState × List SubmitPageRequest :=
  match result with
  | .ok d => ({ st with initial := some d, isInitialLoading := false }, [])
  | .error m =>
    ({ st with initialLoadError := some m
               toasts := st.toasts ++ [m]
               isInitialLoading := false }, [])

/-- Start of `loadGroups` (page.tsx lines 124-127): clears the groups error
and list, sets the flag and issues the GET; it runs from the zone-change
effect and from the explicit Retry link (line 531). -/
def loadGroupsStart (st : SubmitPageState) (zoneId : String) :
    SubmitPageState × List SubmitPageRequest :=
  ({ st with isLoadingGroups := true, groupsError := none, groups := [] },
   [.groups zoneId])

/-- Completion of the awaited `getGroups` inside `loadGroups` (page.tsx
lines 128-137): success stores the list; failure records the error and
toasts it; the finally clears the flag. Neither branch issues any request. -/
def loadGroupsComplete (st : SubmitPageState)
    (result : Except String (List String)) :
    SubmitPageState × List SubmitPageRequest :=
  match result with
  | .ok gs => ({ st with groups := gs, isLoadingGroups := false }, [])
  | .error m =>
    ({ st with groupsError := some m
               toasts := st.toasts ++ [m]
               isLoadingGroups := false }, [])

/-- Completion of the awaited `createGroup` inside `handleSubmit` (page.tsx
lines 200-215): success clears the creating flag and goes on to issue the
actual submission; failure toasts and returns, the outer finally clearing
`isSubmitting`, so the submission is never sent. -/
def createGroupComplete (st : SubmitPageState)
    (result : Except String String) :
    SubmitPageState × List SubmitPageRequest :=
  match result with
  | .ok _ => ({ st with isCreatingGroup := false }, [.submitTestimony])
  | .error m =>
    ({ st with isCreatingGroup := false
               isSubmitting := false
               toasts := st.toasts ++ ["Failed to create group: " ++ m] }, [])

/-- Completion of the awaited `submitTestimony` inside `handleSubmit`
(page.tsx lines 217-252): success navigates to `/submit/success`; failure
toasts the (formatted) message; the finally clears `isSubmitting`. Neither
branch issues any request. -/
def submitComplete (st : SubmitPageState) (result : Except String Unit) :
    SubmitPageState × List SubmitPageRequest :=
  match result with
  | .ok _ =>
    ({ st with isSubmitting := false, navigatedToSuccess := true }, [])
  | .error m =>
    ({ st with isSubmitting := false, toasts := st.toasts ++ [m] }, [])

/-- C7: no failure completion of any request issues a request — the initial
wizard load, the group load, the storage-settings load, the settings save,
the testimonies load, the moderation update, the group creation and the
submission all, on failure, emit no request and surface an error to the user
(a toast, and for the two wizard loads also an error state feeding the
Try Again / Retry UI); the only paths that reissue a request are the
explicit start actions (mount effects and the Try Again / Retry / Refresh /
Submit user actions), each issuing exactly its own request. -/
theorem failed_requests_never_retried_automatically :
    (∀ (st : SubmitPageState) (m : String),
      (loadInitialDataComplete st (.error m)).2 = [] ∧
      (loadInitialDataComplete st (.error m)).1.toasts = st.toasts ++ [m] ∧
      (loadInitialDataComplete st (.error m)).1.initialLoadError = some m) ∧
    (∀ (st : SubmitPageState) (m : String),
      (loadGroupsComplete st (.error m)).2 = [] ∧
      (loadGroupsComplete st (.error m)).1.toasts = st.toasts ++ [m] ∧
      (loadGroupsComplete st (.error m)).1.groupsError = some m) ∧
    (∀ (st : SubmitPageState) (m : String),
      (createGroupComplete st (.error m)).2 = [] ∧
      (createGroupComplete st (.error m)).1.toasts ≠ st.toasts) ∧
    (∀ (st : SubmitPageState) (m : String),
      (submitComplete st (.error m)).2 = [] ∧
      (submitComplete st (.error m)).1.toasts = st.toasts ++ [m]) ∧
    (∀ (st : SettingsPageState) (m : String),
      (loadSettingsComplete st (.error m)).2 = [] ∧
      (loadSettingsComplete st (.error m)).1.toasts ≠ st.toasts) ∧
    (∀ (st : SettingsPageState) (m : String),
      (handleSaveComplete st (.error m)).2 = [] ∧
      (handleSaveComplete st (.error m)).1.toasts = st.toasts ++ [m]) ∧
    (∀ (st : TestimoniesPageState) (m : String),
      (loadTestimoniesComplete st (.error m)).2 = [] ∧
      (loadTestimoniesComplete st (.error m)).1.toasts ≠ st.toasts) ∧
    (∀ (st : TestimoniesPageState) (m : String),
      (handleUpdateStatusComplete st .APPROVED (.error m)).2 = [] ∧
      (handleUpdateStatusComplete st .REJECTED (.error m)).2 = []) ∧
    (∀ st : SubmitPageState, (loadInitialDataStart st).2 = [.initialData]) ∧
    (∀ (st : SubmitPageState) (z : String),
      (loadGroupsStart st z).2 = [.groups z]) ∧
    (∀ st : SettingsPageState,
      (loadSettingsStart st).2 = [.getStorageSettings]) := by
  refine ⟨?_, ?_, ?_, ?_, ?_, ?_, ?_, ?_, ?_, ?_, ?_⟩
  · intro st m
    exact ⟨rfl, rfl, rfl⟩
  · intro st m
    exact ⟨rfl, rfl, rfl⟩
  · intro st m
    refine ⟨rfl, ?_⟩
    simp [createGroupComplete]
  · intro st m
    exact ⟨rfl, rfl⟩
  · intro st m
    refine ⟨rfl, ?_⟩
    simp [loadSettingsComplete]
  · intro st m
    exact ⟨rfl, rfl⟩
  · intro st m
    refine ⟨rfl, ?_⟩
    simp [loadTestimoniesComplete]
  · intro st m
    exact ⟨rfl, rfl⟩
  · intro st
    rfl
  · intro st z
    rfl
  · intro st
    rfl
